import Mathlib

/-!
Verification model of the Colorix WhatsApp service agent.

Shallow embedding of the message-processing core:
  app/llm.py        — generation gateway with provider failover
  app/database.py   — conversation history, session upsert, escalation rows
  app/retriever.py  — query expansion, multi-query search, dedup-by-max, rank & bound
  app/whatsapp.py   — outbound transport call
  app/agent.py      — the per-turn orchestrator `process_message` and the
                      background persistence task `_save_memory`

External collaborators (the vector store, the embedding model, the two LLM
providers, the Twilio client) are modelled as explicit function-valued
parameters; similarity scores are exact rationals standing for the floats
of the source.
-/

namespace Colorix

/-! ## Python string primitives

Character-level models of the `str` methods the source uses, written over
`String.data` so that they evaluate by kernel reduction. -/

/-- Model of Python `str.upper` (ASCII, as used by the source). -/
def strUpper (s : String) : String := ⟨s.data.map Char.toUpper⟩

/-- Model of Python `str.lower` (ASCII, as used by the source). -/
def strLower (s : String) : String := ⟨s.data.map Char.toLower⟩

/-- Model of Python `str.strip`: drop whitespace from both ends. -/
def strStrip (s : String) : String :=
  ⟨((s.data.dropWhile Char.isWhitespace).reverse.dropWhile Char.isWhitespace).reverse⟩

/-- Model of Python `str.startswith`. -/
def strStartsWith (s pre : String) : Bool := pre.data.isPrefixOf s.data

/-- Contiguous-sublist test on lists, used for Python's `needle in haystack`. -/
def listIsInfix [BEq α] : List α → List α → Bool
  | _, [] => false
  | needle, a :: as => needle.isPrefixOf (a :: as) || listIsInfix needle as

/-- Model of Python `needle in haystack` on strings. -/
def strContains (hay needle : String) : Bool :=
  needle.data.isPrefixOf hay.data || listIsInfix needle.data hay.data

/-- Model of Python slicing `s[:n]` (by characters). -/
def strTake (s : String) (n : Nat) : String := ⟨s.data.take n⟩

/-- Model of Python `len` on strings (by characters). -/
def strLen (s : String) : Nat := s.data.length

/-! ## app/llm.py — generation gateway

`invoke_with_fallback` (llm.py lines 31-47):

    use_groq = (prefer or settings.primary_llm) == "groq"
    primary = get_groq() if use_groq else get_gemini()
    fallback = get_gemini if use_groq else get_groq()
    try:
        resp = await primary.ainvoke(messages)
        return resp.content
    except Exception as e:
        resp = await fallback.ainvoke(messages)
        return resp.content

Note the source assigns the bare function `get_gemini` (no call) to
`fallback` in the `use_groq` branch: the object bound there is a function,
not a chat client, and `.ainvoke` on it raises `AttributeError`. The
embedding keeps that distinction with `FallbackSlot`. -/

/-- The two configured generation providers. -/
inductive Provider
  | gemini
  | groq
  deriving Repr, DecidableEq

/-- Role-tagged prompt segments (langchain `SystemMessage` / `HumanMessage`). -/
inductive PromptMsg
  | system (content : String)
  | human (content : String)
  deriving Repr, DecidableEq

/-- Behaviour of the two external providers: each maps the prompt segments to
either a text (`.ok`) or a raised exception (`.error`). -/
structure LLMEnv where
  gemini : List PromptMsg → Except String String
  groq : List PromptMsg → Except String String

/-- Invoke one provider (`client.ainvoke(messages)` returning `.content`). -/
def LLMEnv.call (env : LLMEnv) (p : Provider) (messages : List PromptMsg) :
    Except String String :=
  match p with
  | .gemini => env.gemini messages
  | .groq => env.groq messages

/-- What the source binds to `fallback`: a chat client (`get_groq()`), or a
bare factory function (`get_gemini` — the missing call parentheses in
llm.py line 39). -/
inductive FallbackSlot
  | client (p : Provider)
  | factory (p : Provider)
  deriving Repr, DecidableEq

/-- Python `(prefer or settings.primary_llm)`: `None` and `""` are falsy. -/
def effective_primary (prefer : Option String) (primary_llm : String) : String :=
  match prefer with
  | none => primary_llm
  | some s => if s == "" then primary_llm else s

/-- llm.py `invoke_with_fallback`. Besides the returned text (or the
exception that propagates), the second component records which providers
were actually invoked, in order — the observable provider trace. A
`.factory` fallback raises `AttributeError` without invoking any provider. -/
def invoke_with_fallback (env : LLMEnv) (prefer : Option String)
    (primary_llm : String) (messages : List PromptMsg) :
    Except String String × List Provider :=
  let use_groq := effective_primary prefer primary_llm == "groq"
  let primary : Provider := if use_groq then .groq else .gemini
  let fallback : FallbackSlot := if use_groq then .factory .gemini else .client .groq
  match env.call primary messages with
  | .ok text => (.ok text, [primary])
  | .error _ =>
    match fallback with
    | .client p => (env.call p messages, [primary, p])
    | .factory _ =>
      (.error "AttributeError: function object has no attribute ainvoke", [primary])

example :
    invoke_with_fallback
      ⟨fun _ => .error "gemini down", fun _ => .ok "hi"⟩ none "gemini" [] =
      (.ok "hi", [.gemini, .groq]) := rfl

/-! ## app/database.py — conversation store, sessions, escalations

The `colorix_conversations` table is modelled as a list of rows; the
server-assigned creation order is the `created_at` field. -/

/-- A row of `colorix_conversations` as written by `save_message`
(database.py lines 67-80), plus the server-assigned `created_at`. -/
structure StoredMessage where
  session_id : String
  role : String
  content : String
  language : String
  metadata : List (String × String)
  created_at : Nat
  deriving Repr, DecidableEq

/-- A row as returned by the history query, which selects only
`role, content, created_at` (database.py line 87): any other column of the
stored row — in particular `language` — is absent from the result dict, so
`msg.get("language", ...)` falls through to its default. -/
structure FetchedMessage where
  role : String
  content : String
  created_at : Nat
  language : Option String
  deriving Repr, DecidableEq

/-- The `order("created_at", desc=False)` comparison. -/
def createdLe (a b : StoredMessage) : Prop := a.created_at ≤ b.created_at

instance : DecidableRel createdLe :=
  fun a b => inferInstanceAs (Decidable (a.created_at ≤ b.created_at))

instance : IsTotal StoredMessage createdLe :=
  ⟨fun a b => Nat.le_total a.created_at b.created_at⟩

instance : IsTrans StoredMessage createdLe :=
  ⟨fun _ _ _ h1 h2 => Nat.le_trans h1 h2⟩

/-- database.py `get_conversation_history` (lines 83-93): filter the table by
session, order by `created_at` ascending, apply `limit`, and project the
selected columns (`role, content, created_at`). -/
def get_conversation_history (db : List StoredMessage) (session_id : String)
    (limit : Nat) : List FetchedMessage :=
  (((db.filter (fun m => m.session_id == session_id)).insertionSort createdLe).take
      limit).map
    (fun m => { role := m.role, content := m.content, created_at := m.created_at,
                language := none })

/-- database.py `save_message` (lines 67-80): insert one conversation row;
`t` is the server-assigned creation order. -/
def save_message (table : List StoredMessage) (session_id role content language : String)
    (metadata : List (String × String)) (t : Nat) : List StoredMessage :=
  table ++ [⟨session_id, role, content, language, metadata, t⟩]

/-- A row of `colorix_sessions` (the `state` blob is its two fields
`last_message` / `last_response`). -/
structure SessionRow where
  phone_number : String
  language : String
  last_message : String
  last_response : String
  last_active : Nat
  deriving Repr, DecidableEq

/-- database.py `upsert_session` (lines 110-123): last-write-wins upsert
keyed by `session_id`. -/
def upsert_session (sessions : List (String × SessionRow)) (session_id : String)
    (row : SessionRow) : List (String × SessionRow) :=
  if sessions.any (fun p => p.1 == session_id) then
    sessions.map (fun p => if p.1 == session_id then (session_id, row) else p)
  else sessions ++ [(session_id, row)]

/-- A row of `colorix_escalations` as inserted by `create_escalation`
(database.py lines 128-146). -/
structure EscRecord where
  session_id : String
  customer_number : String
  trigger_reason : String
  last_user_msg : String
  bot_draft : String
  deriving Repr, DecidableEq

/-- A result row of the vector search RPC (`{id, content, metadata,
similarity}`, database.py lines 32-51); similarity is an exact rational
standing for the float score in [0,1]. -/
structure Row where
  id : Nat
  content : String
  metadata : List (String × String)
  similarity : ℚ
  deriving Repr, DecidableEq

/-- The external embedding model (`embed_text`) and vector search
(`similarity_search(query_embedding, top_k, threshold)`) boundary.
`similarity_search` swallows backend errors into an empty list
(database.py lines 41-51), so the boundary is a total function. -/
structure Backend (E : Type) where
  embed : String → E
  search : E → Nat → ℚ → List Row

/-! ## app/whatsapp.py — outbound transport -/

/-- The arguments handed to `client.messages.create` (whatsapp.py
lines 30-34). -/
structure TwilioSend where
  body : String
  from_number : String
  recipient : String
  deriving Repr, DecidableEq

/-- whatsapp.py `send_whatsapp_message` (lines 19-35): normalise the
`whatsapp:` prefixes and hand the transport `body[:1600]`. -/
def send_whatsapp_message (twilio_whatsapp_number to_number body : String) : TwilioSend :=
  let to_number :=
    if strStartsWith to_number "whatsapp:" then to_number else "whatsapp:" ++ to_number
  let from_number :=
    if strStartsWith twilio_whatsapp_number "whatsapp:" then twilio_whatsapp_number
    else "whatsapp:" ++ twilio_whatsapp_number
  { body := strTake body 1600, from_number := from_number, recipient := to_number }

/-! ## app/retriever.py — RAG retrieval with query expansion -/

/-- retriever.py `RetrievedChunk` (dataclass, lines 18-22). -/
structure RetrievedChunk where
  content : String
  metadata : List (String × String)
  similarity : ℚ
  deriving Repr, DecidableEq

/-- Python `round(x, 4)` (retriever.py line 94), as rounding to the nearest
multiple of 1/10000. -/
def round4 (q : ℚ) : ℚ := mkRat ⌊q * 10000 + mkRat 1 2⌋ 10000

lemma round4_mono {a b : ℚ} (h : a ≤ b) : round4 a ≤ round4 b := by
  unfold round4
  simp only [Rat.mkRat_eq_div]
  push_cast
  have hf : (⌊a * 10000 + (1:ℚ)/2⌋ : ℤ) ≤ ⌊b * 10000 + (1:ℚ)/2⌋ :=
    Int.floor_mono (by nlinarith)
  have h2 : ((⌊a * 10000 + (1:ℚ)/2⌋ : ℤ) : ℚ) ≤ ((⌊b * 10000 + (1:ℚ)/2⌋ : ℤ) : ℚ) := by
    exact_mod_cast hf
  exact (div_le_div_iff_of_pos_right (show (0:ℚ) < 10000 by norm_num)).2 h2

/-- retriever.py `expand_query` (lines 25-53). The LLM call it makes (through
`invoke_with_fallback`) is abstracted as its outcome `rephrase_result`; an
exception, an empty rephrasing or one of 300 characters or more falls back
to the unmodified query. -/
def expand_query (rephrase_result : Except String String) (query : String) : String :=
  match rephrase_result with
  | .error _ => query
  | .ok rephrased =>
    let rephrased := strStrip rephrased
    if rephrased != "" && strLen rephrased < 300 then rephrased else query

/-- Python `list(dict.fromkeys(qs))` (retriever.py line 69): deduplicate
keeping first occurrences in order. -/
def dedup_queries (qs : List String) : List String :=
  qs.foldl (fun acc q => if acc.contains q then acc else acc ++ [q]) []

/-- One step of the `all_results` dict update (retriever.py lines 79-82):

    if chunk_id not in all_results or r["similarity"] > all_results[chunk_id]["similarity"]:
        all_results[chunk_id] = r

An existing key keeps its dict position; a new key is appended. -/
def upsert_by_max (acc : List Row) (r : Row) : List Row :=
  if acc.any (fun a => a.id == r.id) then
    acc.map (fun a =>
      if a.id == r.id && decide (a.similarity < r.similarity) then r else a)
  else acc ++ [r]

/-- The whole dict-building loop over the per-query result lists
(retriever.py lines 71-82). -/
def merge_query_results (result_lists : List (List Row)) : List Row :=
  result_lists.foldl (fun acc rs => rs.foldl upsert_by_max acc) []

/-- `sorted(..., key=similarity, reverse=True)` comparison. -/
def rowGe (a b : Row) : Prop := b.similarity ≤ a.similarity

instance : DecidableRel rowGe :=
  fun a b => inferInstanceAs (Decidable (b.similarity ≤ a.similarity))

instance : IsTotal Row rowGe := ⟨fun a b => le_total b.similarity a.similarity⟩

instance : IsTrans Row rowGe := ⟨fun _ _ _ h1 h2 => le_trans h2 h1⟩

/-- retriever.py `retrieve` (lines 56-97) up to `sorted_results`: effective
`k` (`top_k or settings.vector_top_k`, where an absent or zero `top_k`
falls back to the configured default), query expansion, per-query
similarity search at the 0.15 floor, dedup-by-max, sort descending by
similarity, take `k`. -/
def retrieveRows (E : Type) (B : Backend E) (rephrase_result : Except String String)
    (query : String) (top_k : Option Nat) (vector_top_k : Nat) : List Row :=
  let k := match top_k with
    | none => vector_top_k
    | some n => if n == 0 then vector_top_k else n
  let expanded := expand_query rephrase_result query
  let queries := dedup_queries [query, expanded]
  let all_results :=
    merge_query_results (queries.map (fun q => B.search (B.embed q) k (mkRat 15 100)))
  (all_results.insertionSort rowGe).take k

/-- retriever.py `retrieve` (lines 56-104): the `sorted_results` rows
projected to `RetrievedChunk`s, each similarity rounded to 4 decimal
digits. -/
def retrieve (E : Type) (B : Backend E) (rephrase_result : Except String String)
    (query : String) (top_k : Option Nat) (vector_top_k : Nat) : List RetrievedChunk :=
  (retrieveRows E B rephrase_result query top_k vector_top_k).map
    (fun r => { content := r.content, metadata := r.metadata,
                similarity := round4 r.similarity })

/-! ## app/agent.py — the per-turn orchestrator -/

/-- The process-wide configuration the orchestrator reads. -/
structure Settings where
  primary_llm : String
  human_review_whatsapp : String
  twilio_whatsapp_number : String
  deriving Repr, DecidableEq

/-- agent.py step 3 (lines 59-62): number the chunk contents into the
knowledge-base context block. -/
def build_context (raw_chunks : List Row) : String :=
  if raw_chunks.isEmpty then "No relevant information found in knowledge base."
  else
    String.intercalate "\n\n"
      (raw_chunks.enum.map (fun (i, r) => s!"[{i + 1}] {r.content}"))

/-- agent.py step 4 (lines 65-68): format `history[-6:]` as dialogue lines,
with a fallback when the join is empty. -/
def build_history_str (history : List FetchedMessage) : String :=
  let joined := String.intercalate "\n"
    ((history.drop (history.length - 6)).map
      (fun m => (if m.role == "user" then "Customer" else "ColorixBot") ++ ": " ++ m.content))
  if joined == "" then "No previous conversation." else joined

/-- agent.py step 5 (lines 70-75): walk the fetched history newest-first and
take the first assistant row's `language` value, defaulting to `"en"` both
when the key is absent and when no assistant row exists. -/
def last_lang_of (history : List FetchedMessage) : String :=
  match history.reverse.find? (fun m => m.role == "assistant") with
  | some m => m.language.getD "en"
  | none => "en"

/-- agent.py lines 130-134: the lowercased content of the most recent
assistant message, `""` when there is none. -/
def last_bot_msg_of (history : List FetchedMessage) : String :=
  match history.reverse.find? (fun m => m.role == "assistant") with
  | some m => strLower m.content
  | none => ""

/-- agent.py lines 123-127: the fixed bilingual human-request keyword set. -/
def explicit_human_keywords : List String :=
  ["speak to", "talk to", "real person", "human agent", "speak with",
   "talk with", "staff", "manager", "personnel", "representative",
   "parler à", "un agent", "responsable", "une personne"]

/-- agent.py lines 136-139: the bot's "would you like a human?" offer
phrases. -/
def bot_offer_phrases : List String :=
  ["would you like to speak", "reply *yes*", "connect you",
   "souhaitez-vous", "répondez *oui*"]

/-- agent.py lines 140-142: the bilingual affirmative tokens. -/
def affirmative_words : List String :=
  ["yes", "oui", "yeah", "sure", "please", "ok"]

/-- agent.py lines 184-188: the French keyword list of the cheap storage
language heuristic. -/
def french_storage_words : List String :=
  ["bonjour", "salut", "merci", "oui", "non", "je", "nous",
   "vous", "comment", "combien", "quel", "pour", "avec", "est-ce",
   "pouvez", "avez", "voulez", "souhaitez", "livraison", "commande"]

/-- agent.py step 7 (lines 122-148): the escalation decision over the
stripped model response, the fetched history, and the user message. -/
def needs_escalation_check (response : String) (history : List FetchedMessage)
    (user_message : String) : Bool :=
  let bot_offered := bot_offer_phrases.any (fun p => strContains (last_bot_msg_of history) p)
  let user_said_yes := affirmative_words.any (fun w => strContains (strLower user_message) w)
  strStartsWith (strUpper response) "ESCALATE"
    || explicit_human_keywords.any (fun kw => strContains (strLower user_message) kw)
    || (bot_offered && user_said_yes)

/-- agent.py lines 173-177: the fixed English handoff reply. -/
def escalation_reply_en : String :=
  "I'm connecting you with a Colorix team member right now. 🙏\n\nOur staff will reach out to you shortly on WhatsApp.\nYou can also call us directly: *+237 696 26 26 56*"

/-- agent.py lines 177-181: the fixed French handoff reply. -/
def escalation_reply_fr : String :=
  "Je vous connecte avec un membre de l'équipe Colorix. 🙏\n\nNotre équipe vous contactera bientôt sur WhatsApp.\nVous pouvez aussi appeler : *+237 696 26 26 56*"

/-- agent.py step 9 (lines 184-188): the coarse storage-language tag from the
user message alone. -/
def storage_lang (user_message : String) : String :=
  if french_storage_words.any (fun w => strContains (strLower user_message) w) then "fr"
  else "en"

/-- agent.py step 6 (lines 78-114): the single-call system prompt. -/
def system_prompt_text (last_lang context history_str : String) : String :=
  s!"You are ColorixBot, the WhatsApp assistant for Colorix Groupe — a professional printing company in Yaoundé, Cameroon.

LANGUAGE RULE:
- Detect the customer's language from their message
- Respond in the SAME language they used
- Default to English unless the message is clearly French
- If message is very short (ok, yes, oui, merci), use the last conversation language which was: {last_lang}

ESCALATION RULE:
- If the customer explicitly asks to speak to a human, staff, agent, manager, or real person → respond ONLY with the word: ESCALATE

KNOWLEDGE BASE:
{context}

CONVERSATION HISTORY:
{history_str}

RULES:
1. ALWAYS try to answer the question using the knowledge base above
2. If the knowledge base has relevant info → use it to answer directly
3. If the knowledge base has NO info BUT you know the answer as a printing company assistant → answer confidently using your general knowledge about Colorix's products
4. For example: if asked about envelopes, business cards, brochures — you KNOW Colorix prints these, answer yes and give details
5. Only say \"I don't have that info\" for questions completely unrelated to printing or Colorix (e.g. weather, sports, unrelated topics)
6. Never invent prices — all pricing is quote-based, direct to +237 696 26 26 56
7. Keep replies short and clear — this is WhatsApp
8. Do not include full URLs with https:// — just mention colorixgroupe.com
9. Complaints or reprints → hotline +237 699 88 85 77

COMPANY INFO:
- Name: Colorix Groupe
- Address: Rue de la Province, DGSN, Yaoundé, Cameroon
- Phone: +237 696 26 26 56
- Hotline: +237 699 88 85 77 (satisfaction and urgent orders)
- Website: colorixgroupe.com
- Guarantee: Satisfied or Reprinted — unhappy with quality? We reprint free!
- Products: posters, banners, flyers, business cards, brochures, envelopes, stamps, folders, signage, roll-ups, kakemono, mugs, pens, key rings, diaries, calendars, photo books, invitation cards, event packs (concert, wedding, birth, funeral)
"

/-- agent.py step 10 / `_save_memory` parameters (lines 191-198): the
arguments scheduled for the background persistence task. -/
structure SaveArgs where
  session_id : String
  phone_number : String
  user_message : String
  response : String
  lang : String
  escalated : Bool
  deriving Repr, DecidableEq

/-- The observable outcome of one completed turn of `process_message`:
the returned reply plus the side effects (escalation row, staff
notification, scheduled save) and, for specification purposes, the
intermediate values the pipeline computed (retrieved rows, prompt,
stripped model response, derived last language). -/
structure TurnOutcome where
  reply : String
  needs_escalation : Bool
  escalation : Option EscRecord
  staff_note : Option TwilioSend
  storage_language : String
  save_task : SaveArgs
  raw_chunks : List Row
  model_response : String
  prompt_messages : List PromptMsg
  history_last_lang : String
  deriving Repr, DecidableEq

/-- agent.py steps 1-6 (lines 44-119): history fetch (limit 8), vector
search with `top_k=5, threshold=0.20`, context and history formatting,
language lookup, and the assembled single-call prompt segments. -/
def agent_prompt_messages (E : Type) (B : Backend E) (db : List StoredMessage)
    (session_id user_message : String) : List PromptMsg :=
  let history := get_conversation_history db session_id 8
  let embedding := B.embed user_message
  let raw_chunks := B.search embedding 5 (mkRat 20 100)
  let context := build_context raw_chunks
  let history_str := build_history_str history
  let last_lang := last_lang_of history
  let prompt := system_prompt_text last_lang context history_str
  [.system prompt, .human user_message]

/-- agent.py `process_message` (lines 28-201). The store, the embedding and
search backend, the two providers and the escalation id assigned by the
database are parameters; `.error` is an exception propagating to the
caller (the webhook handler's generic-apology path). Steps in order: the
prompt assembly of `agent_prompt_messages` (whose pure intermediate
values are recomputed here where needed), the single LLM call via
`invoke_with_fallback`, escalation detection and handling, storage
language, and the scheduled `_save_memory` arguments. -/
def process_message (E : Type) (B : Backend E) (env : LLMEnv) (cfg : Settings)
    (escId : Nat) (db : List StoredMessage)
    (session_id phone_number user_message : String) : Except String TurnOutcome :=
  let history := get_conversation_history db session_id 8
  let embedding := B.embed user_message
  let raw_chunks := B.search embedding 5 (mkRat 20 100)
  let last_lang := last_lang_of history
  let messages := agent_prompt_messages E B db session_id user_message
  match (invoke_with_fallback env none cfg.primary_llm messages).1 with
  | .error e => .error e
  | .ok raw =>
    let response := strStrip raw
    let esc := needs_escalation_check response history user_message
    let bot_draft := if strStartsWith (strUpper response) "ESCALATE" then "" else response
    let escalation : Option EscRecord :=
      if esc then
        some ⟨session_id, phone_number, "user_requested_human", user_message, bot_draft⟩
      else none
    let staff_msg :=
      s!"🔔 *New Customer Request #{escId}*\n\n📱 Number: +{phone_number}\n💬 Message: _{user_message}_\n\nPlease reply to them directly on WhatsApp."
    let staff_note : Option TwilioSend :=
      if esc then
        some (send_whatsapp_message cfg.twilio_whatsapp_number cfg.human_review_whatsapp
          staff_msg)
      else none
    let final_reply :=
      if esc then (if last_lang == "en" then escalation_reply_en else escalation_reply_fr)
      else response
    let lang := storage_lang user_message
    .ok
      { reply := final_reply
        needs_escalation := esc
        escalation := escalation
        staff_note := staff_note
        storage_language := lang
        save_task := ⟨session_id, phone_number, user_message, final_reply, lang, esc⟩
        raw_chunks := raw_chunks
        model_response := response
        prompt_messages := messages
        history_last_lang := last_lang }

/-! ## app/agent.py — the background persistence task -/

/-- The two tables `_save_memory` writes. -/
structure MemoryDB where
  conversations : List StoredMessage
  sessions : List (String × SessionRow)
  deriving Repr, DecidableEq

/-- agent.py `_save_memory` (lines 204-239): three sequential writes — user
message, assistant message, session upsert — inside one `try` whose
`except` logs and swallows any exception. `failAt = some i` means the
`i`-th write (0-based) raises; earlier writes have already been committed
by the store and are not rolled back. `t` is the server-assigned creation
order of the first insert. Returns the store after the run and whether an
error was caught and logged; no exception ever propagates. -/
def save_memory (failAt : Option Nat) (t : Nat) (db : MemoryDB) (a : SaveArgs) :
    MemoryDB × Bool :=
  if failAt == some 0 then (db, true)
  else
    let user_meta := [("phone", a.phone_number)]
    let conv1 :=
      save_message db.conversations a.session_id "user" a.user_message a.lang user_meta t
    let db1 := { db with conversations := conv1 }
    if failAt == some 1 then (db1, true)
    else
      let bot_meta := [("escalated", if a.escalated then "true" else "false"),
                       ("timestamp", toString (t + 1))]
      let conv2 :=
        save_message db1.conversations a.session_id "assistant" a.response a.lang bot_meta
          (t + 1)
      let db2 := { db1 with conversations := conv2 }
      if failAt == some 2 then (db2, true)
      else
        let sess :=
          upsert_session db2.sessions a.session_id
            ⟨a.phone_number, a.lang, a.user_message, a.response, t + 2⟩
        ({ db2 with sessions := sess }, false)

/-! ## Outcome extractors

Total projections out of `Except String TurnOutcome`, used to state
properties of `process_message` without binding its result. -/

/-- Whether the turn completed (no exception propagated). -/
def turn_ok : Except String TurnOutcome → Bool
  | .ok _ => true
  | .error _ => false

/-- The reply returned to the caller; `""` when the turn failed. -/
def reply_of : Except String TurnOutcome → String
  | .ok o => o.reply
  | .error _ => ""

/-- The escalation decision; `false` when the turn failed. -/
def escalated_of : Except String TurnOutcome → Bool
  | .ok o => o.needs_escalation
  | .error _ => false

/-- The rows the vector search returned for the turn; `[]` when the turn
failed. -/
def raw_chunks_of : Except String TurnOutcome → List Row
  | .ok o => o.raw_chunks
  | .error _ => []

/-- The stripped model response; `""` when the turn failed. -/
def model_response_of : Except String TurnOutcome → String
  | .ok o => o.model_response
  | .error _ => ""

/-- The prompt segments handed to the generation gateway; `[]` when the turn
failed. -/
def prompt_messages_of : Except String TurnOutcome → List PromptMsg
  | .ok o => o.prompt_messages
  | .error _ => []

/-- The escalation row created, if any. -/
def escalation_of : Except String TurnOutcome → Option EscRecord
  | .ok o => o.escalation
  | .error _ => none

/-! ## Concrete fixtures used by the counterexamples and witnesses -/

/-- A process configuration with gemini as the default primary. -/
def test_cfg : Settings :=
  { primary_llm := "gemini"
    human_review_whatsapp := "+237699999999"
    twilio_whatsapp_number := "+14155238886" }

/-- A vector store holding one chunk about business cards at similarity
0.17 — above the 0.15 retrieval floor, below the orchestrator's 0.20
threshold. Its search honours the threshold and returns at most one row. -/
def one_chunk_backend : Backend Unit :=
  { embed := fun _ => ()
    search := fun _ _ threshold =>
      if threshold ≤ mkRat 17 100 then
        [{ id := 7, content := "We print business cards.",
           metadata := [("section", "Products")], similarity := mkRat 17 100 }]
      else [] }

/-- An empty vector store. -/
def empty_backend : Backend Unit :=
  { embed := fun _ => (), search := fun _ _ _ => [] }

/-- Providers that both answer successfully with a fixed reply. -/
def ok_env : LLMEnv :=
  { gemini := fun _ => .ok "Yes, we print business cards. Call +237 696 26 26 56 for a quote."
    groq := fun _ => .ok "Yes, we print business cards. Call +237 696 26 26 56 for a quote." }

/-- A gemini that answers and a groq that raises. -/
def groq_down_env : LLMEnv :=
  { gemini := fun _ => .ok "Hello! How can I help you today?"
    groq := fun _ => .error "rate limited" }

/-! ## C10 — transport truncation -/

/-- C10: `send_whatsapp_message` hands the transport exactly the first 1600
characters of the body; a body of at most 1600 characters is passed
unchanged. The truncation happens in this caller, before the transport
sees the body. -/
theorem send_truncates_to_1600 (twilio_whatsapp_number to_number body : String) :
    (send_whatsapp_message twilio_whatsapp_number to_number body).body =
      strTake body 1600 ∧
    (strLen body ≤ 1600 →
      (send_whatsapp_message twilio_whatsapp_number to_number body).body = body) := by
  constructor
  · rfl
  · intro h
    show strTake body 1600 = body
    unfold strTake
    rw [List.take_of_length_le h]

/-- C10 witness: a short body goes through unmodified. -/
theorem send_truncates_to_1600_witness :
    strLen "Your order is ready." ≤ 1600 ∧
    (send_whatsapp_message "+14155238886" "+237655000001" "Your order is ready.").body =
      "Your order is ready." :=
  ⟨by decide,
    (send_truncates_to_1600 "+14155238886" "+237655000001" "Your order is ready.").2
      (by decide)⟩

/-! ## C2 — provider failover -/

/-- C2: with groq as the effective primary and groq raising, the gateway
never invokes the other provider: the `fallback` name is bound to the
bare `get_gemini` function (llm.py line 39, missing call parentheses), so
the recovery path raises `AttributeError` instead — even though a direct
gemini invocation on the same prompt segments would have succeeded. -/
theorem fallback_with_groq_primary_never_invokes_gemini :
    invoke_with_fallback groq_down_env (some "groq") "gemini" [.human "hi"] =
      (.error "AttributeError: function object has no attribute ainvoke",
       [Provider.groq]) ∧
    groq_down_env.gemini [.human "hi"] = .ok "Hello! How can I help you today?" :=
  ⟨rfl, rfl⟩

/-! ## C1 — history fetch window -/

/-- A session holding nine messages in creation order `m1 .. m9`. -/
def nine_message_db : List StoredMessage :=
  [⟨"wa_1", "user", "m1", "en", [], 1⟩, ⟨"wa_1", "assistant", "m2", "en", [], 2⟩,
   ⟨"wa_1", "user", "m3", "en", [], 3⟩, ⟨"wa_1", "assistant", "m4", "en", [], 4⟩,
   ⟨"wa_1", "user", "m5", "en", [], 5⟩, ⟨"wa_1", "assistant", "m6", "en", [], 6⟩,
   ⟨"wa_1", "user", "m7", "en", [], 7⟩, ⟨"wa_1", "assistant", "m8", "en", [], 8⟩,
   ⟨"wa_1", "user", "m9", "en", [], 9⟩]

/-- C1: on a nine-message session the fetch with limit 8 returns the oldest
eight messages `m1 .. m8` — ascending order is applied before the limit —
not the most recent eight `m2 .. m9` oldest-first that the spec (and the
function's own docstring) promise. -/
theorem history_fetch_returns_oldest_not_latest :
    (get_conversation_history nine_message_db "wa_1" 8).map (fun m => m.content) =
      ["m1", "m2", "m3", "m4", "m5", "m6", "m7", "m8"] ∧
    (get_conversation_history nine_message_db "wa_1" 8).map (fun m => m.content) ≠
      ["m2", "m3", "m4", "m5", "m6", "m7", "m8", "m9"] := by
  constructor <;> decide

/-! ## C3 — persistence atomicity -/

/-- The two conversation rows one run of `save_memory` tries to insert. -/
def turn_messages (a : SaveArgs) (t : Nat) : List StoredMessage :=
  [⟨a.session_id, "user", a.user_message, a.lang, [("phone", a.phone_number)], t⟩,
   ⟨a.session_id, "assistant", a.response, a.lang,
    [("escalated", if a.escalated then "true" else "false"),
     ("timestamp", toString (t + 1))], t + 1⟩]

/-- An empty store and one turn's save arguments. -/
def c3_args : SaveArgs :=
  ⟨"wa_5", "237600000001", "hello", "Hi! How can I help?", "en", false⟩

/-- C3 counterexample: when the second write (the assistant message) raises,
the run neither fully commits the turn's three writes nor fails as a unit:
the user message is already committed while the assistant message and the
session upsert are not. -/
theorem save_memory_partial_commit_possible :
    (save_memory (some 1) 0 ⟨[], []⟩ c3_args).1 ≠ (⟨[], []⟩ : MemoryDB) ∧
    (save_memory (some 1) 0 ⟨[], []⟩ c3_args).1 ≠ (save_memory none 0 ⟨[], []⟩ c3_args).1 ∧
    (save_memory (some 1) 0 ⟨[], []⟩ c3_args).2 = true := by
  refine ⟨?_, ?_, rfl⟩ <;> decide

/-- C3 amended: every run applies the three writes in order and stops at the
first failure, which is caught (logged, never propagated): the
conversation table gains a prefix of the turn's two messages; on a run
with a failed write the session row is left untouched, and on a fully
successful run it carries the complete upsert for this turn — so the
session upsert is applied exactly when all three writes succeed and the
stored session language and last-turn state never reflect a partially
processed turn; an error is logged exactly when one of the three writes
raised. Writes are not atomic as a unit: an earlier message write
persists when a later write fails. -/
theorem save_memory_prefix_writes_and_session_all_or_nothing (failAt : Option Nat)
    (t : Nat) (db : MemoryDB) (a : SaveArgs) :
    (∃ k ≤ 2, (save_memory failAt t db a).1.conversations =
        db.conversations ++ (turn_messages a t).take k) ∧
    ((save_memory failAt t db a).2 = true →
      (save_memory failAt t db a).1.sessions = db.sessions) ∧
    ((save_memory failAt t db a).2 = false →
      (save_memory failAt t db a).1.sessions =
        upsert_session db.sessions a.session_id
          ⟨a.phone_number, a.lang, a.user_message, a.response, t + 2⟩) ∧
    ((save_memory failAt t db a).2 = true ↔
      failAt = some 0 ∨ failAt = some 1 ∨ failAt = some 2) := by
  rcases failAt with _ | n
  · refine ⟨⟨2, by norm_num, ?_⟩, ?_, fun _ => rfl, by simp [save_memory]⟩
    · simp [save_memory, save_message, turn_messages, List.append_assoc]
    · intro h
      simp [save_memory] at h
  · match n with
    | 0 =>
      refine ⟨⟨0, by norm_num, by simp [save_memory, turn_messages]⟩, fun _ => rfl, ?_, ?_⟩
      · intro h
        simp [save_memory] at h
      · simp [save_memory]
    | 1 =>
      refine ⟨⟨1, by norm_num, ?_⟩, fun _ => rfl, ?_, ?_⟩
      · simp [save_memory, save_message, turn_messages]
      · intro h
        simp [save_memory] at h
      · simp [save_memory]
    | 2 =>
      refine ⟨⟨2, by norm_num, ?_⟩, fun _ => rfl, ?_, ?_⟩
      · simp [save_memory, save_message, turn_messages, List.append_assoc]
      · intro h
        simp [save_memory] at h
      · simp [save_memory]
    | (m + 3) =>
      refine ⟨⟨2, by norm_num, ?_⟩, ?_, fun _ => rfl, ?_⟩
      · simp [save_memory, save_message, turn_messages, List.append_assoc]
      · intro h
        simp [save_memory] at h
      · simp [save_memory]

/-! ## C5 — derived last-known language -/

/-- A French conversation: the most recent assistant message was stored with
language tag `"fr"`. -/
def french_session_db : List StoredMessage :=
  [⟨"wa_2", "user", "bonjour", "fr", [("phone", "237655000001")], 1⟩,
   ⟨"wa_2", "assistant", "Bonjour ! Comment puis-je vous aider ?", "fr", [], 2⟩]

set_option maxRecDepth 100000 in
/-- C5: the most recent assistant message of the session is stored with
language tag `"fr"`, yet the derived last-known language is `"en"` — the
history query selects only `role, content, created_at`, so the `language`
value never reaches `msg.get("language", "en")` — and on an escalating
turn the English handoff message is selected instead of the French one. -/
theorem derived_last_language_always_default :
    ((french_session_db.filter (fun m => m.session_id == "wa_2")).reverse.find?
        (fun m => m.role == "assistant")).map (fun m => m.language) = some "fr" ∧
    last_lang_of (get_conversation_history french_session_db "wa_2" 8) = "en" ∧
    reply_of (process_message Unit empty_backend ok_env test_cfg 1 french_session_db
        "wa_2" "237655000001" "je veux parler à un responsable") = escalation_reply_en := by
  refine ⟨rfl, ?_, ?_⟩ <;> decide

/-! ## C4 — the orchestrator's retrieval step vs the Retrieval Engine -/

/-- C4 counterexample: over a store holding one chunk at similarity 0.17,
the Retrieval Engine's `retrieve` on the raw user text returns that chunk
(its fan-out searches use the 0.15 floor), while the orchestrator's
retrieval step retrieves nothing: `process_message` never calls
`retrieve` — it issues one direct `similarity_search` at threshold 0.20
(agent.py lines 54-56) with no expansion and no deduplication — so the
chunks placed into the generation prompt differ from `retrieve`'s
result. -/
theorem orchestrator_retrieval_differs_from_retrieve :
    (retrieve Unit one_chunk_backend (.error "expansion failed")
        "do you print business cards" none 5).map (fun c => c.content) =
      ["We print business cards."] ∧
    raw_chunks_of (process_message Unit one_chunk_backend ok_env test_cfg 1 []
        "wa_4" "237655000001" "do you print business cards") = [] := by
  constructor <;> rfl

/-! ## C8 counterexample — the requested-k edge -/

/-- C8 counterexample: `retrieve` with requested `k = 0` returns one chunk:
`top_k or settings.vector_top_k` (retriever.py line 63) treats `0` as
falsy and silently substitutes the configured default (5), so the output
is longer than the requested `k`. -/
theorem retrieve_zero_k_exceeds_requested :
    (retrieve Unit one_chunk_backend (.error "expansion failed")
        "business cards" (some 0) 5).length = 1 ∧
    ¬ ((retrieve Unit one_chunk_backend (.error "expansion failed")
        "business cards" (some 0) 5).length ≤ 0) := by
  constructor
  · rfl
  · intro h
    simp only [show (retrieve Unit one_chunk_backend (.error "expansion failed")
        "business cards" (some 0) 5).length = 1 from rfl] at h
    exact absurd h (by norm_num)

/-! ## Dedup-by-max lemmas (retriever.py lines 71-88)

`lookup_sim` observes the `all_results` dict: the similarity currently kept
for an identifier. The lemmas track it through `upsert_by_max` and the
fold, building up to C7 and the id-uniqueness used by C8. -/

/-- The similarity the deduplication dict currently keeps for identifier
`i` (the first — by construction only — entry with that id). -/
def lookup_sim (acc : List Row) (i : Nat) : Option ℚ :=
  (acc.find? (fun a => a.id == i)).map (fun a => a.similarity)

lemma upsert_entry_id (r a : Row) :
    (if a.id == r.id && decide (a.similarity < r.similarity) then r else a).id = a.id := by
  by_cases h : (a.id == r.id && decide (a.similarity < r.similarity)) = true
  · rw [if_pos h]
    rw [Bool.and_eq_true] at h
    exact (eq_of_beq h.1).symm
  · rw [if_neg h]

lemma ids_upsert_by_max (acc : List Row) (r : Row) :
    (upsert_by_max acc r).map Row.id =
      if acc.any (fun a => a.id == r.id) then acc.map Row.id
      else acc.map Row.id ++ [r.id] := by
  unfold upsert_by_max
  by_cases h : acc.any (fun a => a.id == r.id) = true
  · simp only [h, if_true, List.map_map]
    exact List.map_congr_left (fun a _ => upsert_entry_id r a)
  · simp only [h, if_false, Bool.false_eq_true, List.map_append, List.map_cons,
      List.map_nil]

lemma nodup_ids_upsert_by_max {acc : List Row} (r : Row)
    (h : (acc.map Row.id).Nodup) : ((upsert_by_max acc r).map Row.id).Nodup := by
  rw [ids_upsert_by_max]
  by_cases hany : acc.any (fun a => a.id == r.id) = true
  · simpa [hany] using h
  · have hf : acc.any (fun a => a.id == r.id) = false := by
      revert hany
      cases acc.any (fun a => a.id == r.id) <;> simp
    simp only [hf, Bool.false_eq_true, if_false]
    rw [List.nodup_append]
    refine ⟨h, List.nodup_singleton _, ?_⟩
    intro x hx hmem
    rcases List.mem_singleton.1 hmem
    obtain ⟨a, ha, hax⟩ := List.mem_map.1 hx
    have := List.any_eq_false.1 hf a ha
    exact this ((beq_iff_eq).2 hax)

lemma nodup_ids_fold {acc : List Row} (L : List Row)
    (h : (acc.map Row.id).Nodup) :
    ((L.foldl upsert_by_max acc).map Row.id).Nodup := by
  induction L generalizing acc with
  | nil => exact h
  | cons c t ih => exact ih (nodup_ids_upsert_by_max c h)

/-- The deduplication dict never holds two entries with the same id. -/
lemma nodup_ids_merge (result_lists : List (List Row)) :
    ((merge_query_results result_lists).map Row.id).Nodup := by
  unfold merge_query_results
  have general :
      ∀ (ls : List (List Row)) (acc : List Row), (acc.map Row.id).Nodup →
        ((ls.foldl (fun acc rs => rs.foldl upsert_by_max acc) acc).map Row.id).Nodup := by
    intro ls
    induction ls with
    | nil => exact fun _ h => h
    | cons rs t ih => exact fun acc h => ih _ (nodup_ids_fold rs h)
  exact general result_lists [] (by simp)

lemma lookup_upsert_other {i : Nat} (acc : List Row) (r : Row) (h : i ≠ r.id) :
    lookup_sim (upsert_by_max acc r) i = lookup_sim acc i := by
  unfold upsert_by_max lookup_sim
  by_cases hany : acc.any (fun a => a.id == r.id) = true
  · simp only [hany, if_true]
    rw [List.find?_map]
    have hpred :
        ((fun a => a.id == i) ∘ fun a =>
          if a.id == r.id && decide (a.similarity < r.similarity) then r else a) =
          (fun a : Row => a.id == i) := by
      funext a
      simp only [Function.comp_apply, upsert_entry_id]
    rw [hpred]
    cases hfind : acc.find? (fun a => a.id == i) with
    | none => rfl
    | some a =>
      have hai0 := List.find?_some hfind
      have hai : a.id = i := eq_of_beq hai0
      have hcond : (a.id == r.id && decide (a.similarity < r.similarity)) = false := by
        have hne : (a.id == r.id) = false := by
          rw [hai]
          simp only [beq_eq_false_iff_ne, ne_eq]
          exact h
        simp [hne]
      simp only [Option.map_some', hcond, Bool.false_eq_true, if_false]
  · simp only [hany, if_false, Bool.false_eq_true]
    rw [List.find?_append]
    have hr : List.find? (fun a => a.id == i) [r] = none := by
      have hne : (r.id == i) = false := by
        simpa using fun he => h he.symm
      simp [List.find?, hne]
    rw [hr]
    cases acc.find? (fun a => a.id == i) <;> rfl

lemma if_lt_eq_max (x y : ℚ) : (if x < y then y else x) = max x y := by
  by_cases h : x < y
  · rw [if_pos h, max_eq_right h.le]
  · rw [if_neg h, max_eq_left (le_of_not_lt h)]

lemma lookup_upsert_self (acc : List Row) (r : Row) :
    lookup_sim (upsert_by_max acc r) r.id =
      some (match lookup_sim acc r.id with
            | none => r.similarity
            | some s => max s r.similarity) := by
  unfold upsert_by_max lookup_sim
  cases hfind : acc.find? (fun a => a.id == r.id) with
  | none =>
    have hany : acc.any (fun a => a.id == r.id) = false := by
      rw [List.any_eq_false]
      intro a ha
      exact (List.find?_eq_none.1 hfind) a ha
    simp only [hany, if_false, Bool.false_eq_true]
    have hrr : List.find? (fun a => a.id == r.id) [r] = some r := by
      have hself : (r.id == r.id) = true := beq_self_eq_true r.id
      simp [List.find?, hself]
    rw [List.find?_append, hfind, hrr]
    rfl
  | some a =>
    have hany : acc.any (fun a => a.id == r.id) = true := by
      rw [List.any_eq_true]
      refine ⟨a, List.mem_of_find?_eq_some hfind, ?_⟩
      have hp := List.find?_some hfind
      exact hp
    simp only [hany, if_true]
    rw [List.find?_map]
    have hpred :
        ((fun a => a.id == r.id) ∘ fun a =>
          if a.id == r.id && decide (a.similarity < r.similarity) then r else a) =
          (fun a : Row => a.id == r.id) := by
      funext a
      simp only [Function.comp_apply, upsert_entry_id]
    rw [hpred, hfind]
    have hbeq : (a.id == r.id) = true := by
      have hp := List.find?_some hfind
      exact hp
    simp only [Option.map_some', hbeq, Bool.true_and]
    by_cases hlt : a.similarity < r.similarity
    · simp only [hlt, decide_True, if_true]
      rw [max_eq_right hlt.le]
    · simp only [hlt, decide_False, if_false, Bool.false_eq_true]
      rw [max_eq_left (le_of_not_lt hlt)]

lemma lookup_fold_other {i : Nat} (L : List Row) (acc : List Row)
    (h : ∀ x ∈ L, x.id ≠ i) :
    lookup_sim (L.foldl upsert_by_max acc) i = lookup_sim acc i := by
  induction L generalizing acc with
  | nil => rfl
  | cons c t ih =>
    have hc : i ≠ c.id := fun he => h c (List.mem_cons_self c t) he.symm
    have ht : ∀ x ∈ t, x.id ≠ i := fun x hx => h x (List.mem_cons_of_mem c hx)
    rw [List.foldl_cons, ih (upsert_by_max acc c) ht, lookup_upsert_other acc c hc]

lemma lookup_fold_hit (L : List Row) (acc : List Row) (b : Row)
    (hnd : (L.map Row.id).Nodup) (hb : b ∈ L) :
    lookup_sim (L.foldl upsert_by_max acc) b.id =
      some (match lookup_sim acc b.id with
            | none => b.similarity
            | some s => max s b.similarity) := by
  induction L generalizing acc with
  | nil => cases hb
  | cons c t ih =>
    rw [List.map_cons, List.nodup_cons] at hnd
    rcases List.mem_cons.1 hb with hbc | hbt
    · subst hbc
      have ht : ∀ x ∈ t, x.id ≠ b.id := by
        intro x hx he
        apply hnd.1
        rw [← he]
        exact List.mem_map_of_mem Row.id hx
      rw [List.foldl_cons, lookup_fold_other t (upsert_by_max acc b) ht]
      exact lookup_upsert_self acc b
    · have hne : c.id ≠ b.id := by
        intro he
        apply hnd.1
        rw [he]
        exact List.mem_map_of_mem Row.id hbt
      have hb' : b.id ≠ c.id := fun he => hne he.symm
      rw [List.foldl_cons, ih (upsert_by_max acc c) hnd.2 hbt,
        lookup_upsert_other acc c hb']

lemma lookup_mem {out : List Row} {i : Nat} {s : ℚ}
    (h : lookup_sim out i = some s) :
    ∃ c ∈ out, c.id = i ∧ c.similarity = s := by
  unfold lookup_sim at h
  obtain ⟨a, hfind, hsim⟩ := Option.map_eq_some'.1 h
  have hp := List.find?_some hfind
  exact ⟨a, List.mem_of_find?_eq_some hfind, eq_of_beq hp, hsim⟩

/-! ## C7 — dedup-by-max -/

/-- C7: dedup-by-max over the two fan-out result lists never outputs two
entries with the same identifier; and whenever an identifier occurs in
both lists (per-list identifiers being distinct, as search results keyed
by stored id are), the kept entry's similarity equals the maximum of the
two similarities recorded for that identifier. -/
theorem dedup_by_max_nodup_and_max_kept :
    (∀ A B : List Row, ((merge_query_results [A, B]).map Row.id).Nodup) ∧
    (∀ (A B : List Row) (a b : Row), (A.map Row.id).Nodup → (B.map Row.id).Nodup →
      a ∈ A → b ∈ B → a.id = b.id →
      ∃ c ∈ merge_query_results [A, B], c.id = a.id ∧
        c.similarity = max a.similarity b.similarity) := by
  constructor
  · intro A B
    exact nodup_ids_merge [A, B]
  · intro A B a b hA hB ha hb hid
    have h1 : lookup_sim (A.foldl upsert_by_max []) a.id = some a.similarity := by
      simpa [lookup_sim] using lookup_fold_hit A [] a hA ha
    have hba : b.id = a.id := hid.symm
    have h2 := lookup_fold_hit B (A.foldl upsert_by_max []) b hB hb
    rw [hba, h1] at h2
    have h2m : lookup_sim (merge_query_results [A, B]) a.id =
        some (max a.similarity b.similarity) := by
      unfold merge_query_results
      simpa using h2
    exact lookup_mem h2m

/-- The same chunk (id 7) as returned for the first fan-out query. -/
def chunk_from_query_A : Row :=
  ⟨7, "Business cards are printed on 350gsm card.", [], mkRat 1 2⟩

/-- The same chunk as returned for the second query, with the higher score. -/
def chunk_from_query_B : Row :=
  ⟨7, "Business cards are printed on 350gsm card.", [], mkRat 3 4⟩

/-- C7 witness: a shared identifier appears once in the merged output and
keeps the higher of its two scores. -/
theorem dedup_by_max_nodup_and_max_kept_witness :
    ((merge_query_results [[chunk_from_query_A], [chunk_from_query_B]]).map Row.id).Nodup ∧
    (([chunk_from_query_A].map Row.id).Nodup ∧
      ([chunk_from_query_B].map Row.id).Nodup ∧
      chunk_from_query_A.id = chunk_from_query_B.id) ∧
    (∃ c ∈ merge_query_results [[chunk_from_query_A], [chunk_from_query_B]],
      c.id = chunk_from_query_A.id ∧
      c.similarity = max chunk_from_query_A.similarity chunk_from_query_B.similarity) :=
  ⟨dedup_by_max_nodup_and_max_kept.1 [chunk_from_query_A] [chunk_from_query_B],
   ⟨by decide, by decide, by decide⟩,
   dedup_by_max_nodup_and_max_kept.2 [chunk_from_query_A] [chunk_from_query_B]
     chunk_from_query_A chunk_from_query_B (by decide) (by decide)
     (List.mem_singleton_self _) (List.mem_singleton_self _) (by decide)⟩

/-! ## C8 amended — bound, order, id-uniqueness -/

/-- C8 amended: for every backend, expansion outcome, query and requested
`k ≥ 1`, the retrieval output has at most `k` chunks, the (rounded)
similarities are non-increasing along the output, and the selected rows
carry pairwise-distinct identifiers. (A requested `k = 0` is falsy in the
source and the configured default is used in its place.) -/
theorem retrieve_bounded_sorted_nodup (E : Type) (B : Backend E)
    (rephrase_result : Except String String) (query : String) (k vector_top_k : Nat)
    (hk : 1 ≤ k) :
    (retrieve E B rephrase_result query (some k) vector_top_k).length ≤ k ∧
    ((retrieve E B rephrase_result query (some k) vector_top_k).map
        (fun c => c.similarity)).Pairwise (fun x y => y ≤ x) ∧
    ((retrieveRows E B rephrase_result query (some k) vector_top_k).map Row.id).Nodup := by
  have hk0 : (k == 0) = false := by
    cases k with
    | zero => omega
    | succ n => rfl
  unfold retrieve retrieveRows
  simp only [hk0, Bool.false_eq_true, if_false]
  set all := merge_query_results
    ((dedup_queries [query, expand_query rephrase_result query]).map
      (fun q => B.search (B.embed q) k (mkRat 15 100))) with hall_def
  have hsorted : List.Pairwise rowGe (all.insertionSort rowGe) :=
    List.sorted_insertionSort rowGe all
  have htake : List.Pairwise rowGe ((all.insertionSort rowGe).take k) :=
    List.Pairwise.sublist (List.take_sublist k _) hsorted
  refine ⟨?_, ?_, ?_⟩
  · rw [List.length_map, List.length_take]
    exact le_trans (Nat.min_le_left _ _) (le_refl k)
  · rw [List.map_map]
    exact htake.map _ (fun a b hab => round4_mono hab)
  · have hall : (all.map Row.id).Nodup := nodup_ids_merge _
    have hperm : ((all.insertionSort rowGe).map Row.id).Perm (all.map Row.id) :=
      (List.perm_insertionSort rowGe all).map Row.id
    have hsorted_nodup : ((all.insertionSort rowGe).map Row.id).Nodup :=
      hperm.symm.nodup hall
    exact List.Nodup.sublist ((List.take_sublist k _).map Row.id) hsorted_nodup

/-- C8 witness: a request with `k = 3` on the one-chunk store. -/
theorem retrieve_bounded_sorted_nodup_witness :
    1 ≤ 3 ∧
    ((retrieve Unit one_chunk_backend (.error "expansion failed") "cards"
        (some 3) 5).length ≤ 3 ∧
     ((retrieve Unit one_chunk_backend (.error "expansion failed") "cards"
        (some 3) 5).map (fun c => c.similarity)).Pairwise (fun x y => y ≤ x) ∧
     ((retrieveRows Unit one_chunk_backend (.error "expansion failed") "cards"
        (some 3) 5).map Row.id).Nodup) :=
  ⟨by norm_num,
   retrieve_bounded_sorted_nodup Unit one_chunk_backend (.error "expansion failed")
     "cards" 3 5 (by norm_num)⟩

/-! ## C6 — the escalation rules -/

/-- Providers that both answer with the bare sentinel. -/
def sentinel_env : LLMEnv :=
  { gemini := fun _ => .ok "ESCALATE", groq := fun _ => .ok "ESCALATE" }

/-- C6: a completed turn escalates exactly when at least one of the three
rules holds — the stripped model response begins with "ESCALATE"
case-insensitively, or the lowercased user message contains one of the
fixed bilingual human-request keywords, or the most recent fetched
assistant message contains a human-offer phrase while the user message
contains an affirmative token; when none holds, no escalation fires. -/
theorem escalation_fires_iff_rules (E : Type) (B : Backend E) (env : LLMEnv)
    (cfg : Settings) (escId : Nat) (db : List StoredMessage)
    (session_id phone_number user_message : String)
    (h : turn_ok (process_message E B env cfg escId db session_id phone_number
        user_message) = true) :
    escalated_of (process_message E B env cfg escId db session_id phone_number
        user_message) =
      (strStartsWith (strUpper (model_response_of (process_message E B env cfg escId db
            session_id phone_number user_message))) "ESCALATE"
        || explicit_human_keywords.any (fun kw => strContains (strLower user_message) kw)
        || (bot_offer_phrases.any (fun p =>
              strContains (last_bot_msg_of (get_conversation_history db session_id 8)) p)
            && affirmative_words.any (fun w => strContains (strLower user_message) w))) := by
  unfold process_message at h ⊢
  dsimp only at h ⊢
  cases hres : (invoke_with_fallback env none cfg.primary_llm
      (agent_prompt_messages E B db session_id user_message)).1 with
  | error e =>
    simp [turn_ok, hres] at h
  | ok raw =>
    dsimp only at h ⊢
    simp only [escalated_of, model_response_of, needs_escalation_check]

/-- C6 witness: with the model emitting the sentinel on an otherwise
unremarkable message, the turn completes and escalates. -/
theorem escalation_fires_iff_rules_witness :
    turn_ok (process_message Unit empty_backend sentinel_env test_cfg 1 []
      "wa_6" "237655000002" "what are your opening hours") = true ∧
    escalated_of (process_message Unit empty_backend sentinel_env test_cfg 1 []
        "wa_6" "237655000002" "what are your opening hours") =
      (strStartsWith (strUpper (model_response_of (process_message Unit empty_backend
            sentinel_env test_cfg 1 [] "wa_6" "237655000002"
            "what are your opening hours"))) "ESCALATE"
        || explicit_human_keywords.any (fun kw =>
            strContains (strLower "what are your opening hours") kw)
        || (bot_offer_phrases.any (fun p =>
              strContains (last_bot_msg_of (get_conversation_history [] "wa_6" 8)) p)
            && affirmative_words.any (fun w =>
                strContains (strLower "what are your opening hours") w))) :=
  ⟨rfl,
   escalation_fires_iff_rules Unit empty_backend sentinel_env test_cfg 1 []
     "wa_6" "237655000002" "what are your opening hours" rfl⟩

/-! ## C9 — the sentinel never reaches the customer -/

/-- C9: whatever the store, the backend, the providers and the inputs, the
reply `process_message` returns never begins with the sentinel "ESCALATE"
case-insensitively: a model output that does makes the escalation branch
replace the reply with a fixed handoff message, and a failed turn returns
no reply at all. -/
theorem reply_never_begins_with_sentinel (E : Type) (B : Backend E) (env : LLMEnv)
    (cfg : Settings) (escId : Nat) (db : List StoredMessage)
    (session_id phone_number user_message : String) :
    strStartsWith (strUpper (reply_of (process_message E B env cfg escId db
      session_id phone_number user_message))) "ESCALATE" = false := by
  unfold process_message
  dsimp only
  cases hres : (invoke_with_fallback env none cfg.primary_llm
      (agent_prompt_messages E B db session_id user_message)).1 with
  | error e =>
    dsimp only [reply_of]
    decide
  | ok raw =>
    dsimp only
    simp only [reply_of]
    by_cases hesc : needs_escalation_check (strStrip raw)
        (get_conversation_history db session_id 8) user_message = true
    · simp only [hesc, if_true]
      by_cases hl : (last_lang_of (get_conversation_history db session_id 8) == "en") = true
      · simp only [hl, if_true]
        decide
      · simp only [hl, Bool.false_eq_true, if_false]
        decide
    · have hesc0 : needs_escalation_check (strStrip raw)
          (get_conversation_history db session_id 8) user_message = false := by
        revert hesc
        cases needs_escalation_check (strStrip raw)
          (get_conversation_history db session_id 8) user_message <;> simp
      simp only [hesc0, Bool.false_eq_true, if_false]
      unfold needs_escalation_check at hesc0
      simp only [Bool.or_eq_false_iff] at hesc0
      exact hesc0.1.1

/-! ## C4 amended — what the orchestrator actually retrieves -/

/-- C4 amended: on every completed turn the orchestrator performs a single
similarity search over the embedding of the raw user text with `top_k = 5`
and threshold 0.20 — no query expansion and no deduplication — and the
prompt handed to the generation gateway embeds the knowledge-base context
built from exactly those rows. -/
theorem orchestrator_single_search_prompt (E : Type) (B : Backend E) (env : LLMEnv)
    (cfg : Settings) (escId : Nat) (db : List StoredMessage)
    (session_id phone_number user_message : String)
    (h : turn_ok (process_message E B env cfg escId db session_id phone_number
        user_message) = true) :
    raw_chunks_of (process_message E B env cfg escId db session_id phone_number
        user_message) = B.search (B.embed user_message) 5 (mkRat 20 100) ∧
    prompt_messages_of (process_message E B env cfg escId db session_id phone_number
        user_message) =
      [PromptMsg.system (system_prompt_text
          (last_lang_of (get_conversation_history db session_id 8))
          (build_context (B.search (B.embed user_message) 5 (mkRat 20 100)))
          (build_history_str (get_conversation_history db session_id 8))),
       PromptMsg.human user_message] := by
  unfold process_message at h ⊢
  dsimp only at h ⊢
  cases hres : (invoke_with_fallback env none cfg.primary_llm
      (agent_prompt_messages E B db session_id user_message)).1 with
  | error e =>
    simp [turn_ok, hres] at h
  | ok raw =>
    exact ⟨rfl, rfl⟩

/-- C4 amended witness: a completed turn over the one-chunk store. -/
theorem orchestrator_single_search_prompt_witness :
    turn_ok (process_message Unit one_chunk_backend ok_env test_cfg 1 []
      "wa_4" "237655000001" "do you print business cards") = true ∧
    raw_chunks_of (process_message Unit one_chunk_backend ok_env test_cfg 1 []
        "wa_4" "237655000001" "do you print business cards") =
      one_chunk_backend.search (one_chunk_backend.embed "do you print business cards") 5
        (mkRat 20 100) ∧
    prompt_messages_of (process_message Unit one_chunk_backend ok_env test_cfg 1 []
        "wa_4" "237655000001" "do you print business cards") =
      [PromptMsg.system (system_prompt_text
          (last_lang_of (get_conversation_history [] "wa_4" 8))
          (build_context (one_chunk_backend.search
            (one_chunk_backend.embed "do you print business cards") 5 (mkRat 20 100)))
          (build_history_str (get_conversation_history [] "wa_4" 8))),
       PromptMsg.human "do you print business cards"] :=
  ⟨rfl,
   (orchestrator_single_search_prompt Unit one_chunk_backend ok_env test_cfg 1 []
     "wa_4" "237655000001" "do you print business cards" rfl).1,
   (orchestrator_single_search_prompt Unit one_chunk_backend ok_env test_cfg 1 []
     "wa_4" "237655000001" "do you print business cards" rfl).2⟩

end Colorix